import Mathlib

/-!
Verification of the fitness-tracker module (`homework.py`).

The module computes derived workout metrics (distance, mean speed, spent
calories) for three workout variants (running, sports walking, swimming),
renders them through an `InfoMessage` formatter, and dispatches raw sensor
packages to the right variant via `read_package`.

Embedding conventions:
* Python numbers are modelled as rationals (`ℚ`); the arithmetic of the
  formulas is exact field arithmetic.
* A Python method that can return `None` is modelled with `Option`.
* A Python call that raises is modelled with `Except`.
* The class hierarchy `Training` / `Running` / `SportsWalking` / `Swimming`
  is modelled as one inductive with a constructor per instantiable class,
  and each dynamically dispatched method as a match on the constructor.
-/

/-- The `InfoMessage` class: label plus four numeric fields.
`calories` is `Option ℚ` because its single producer
(`Training.show_training_info`) passes the result of `get_spent_calories`,
which in the base class is `None` (the body is `pass`). -/
structure InfoMessage where
  training_type : String
  duration : ℚ
  distance : ℚ
  speed : ℚ
  calories : Option ℚ
  deriving DecidableEq

/-- Decimal digit character: `'0' + n % 10`. -/
def digitChar (n : ℕ) : Char := Char.ofNat (48 + n % 10)

/-- Python fixed-point formatting `f"{q:.3f}"`, modelled over the rational
number model: sign, integer part, a point, then exactly the three decimal
digits of the value scaled by 1000 and rounded to the nearest integer.
(The tie-breaking of CPython's float formatter is irrelevant to the
properties proved below.) -/
def fix3 (q : ℚ) : String :=
  let sign : String := if q < 0 then "-" else ""
  let m : ℕ := (round (|q| * 1000)).toNat
  sign ++ toString (m / 1000) ++ "." ++
    String.mk [digitChar (m / 100), digitChar (m / 10), digitChar m]

/-- `InfoMessage.get_message`: the fixed one-line template.  Formatting a
`None` calories value with `:.3f` raises `TypeError` in Python, modelled as
`none`. -/
def get_message (m : InfoMessage) : Option String :=
  match m.calories with
  | none => none
  | some c =>
      some ("Тип тренировки: " ++ m.training_type ++ "; Длительность: " ++
        fix3 m.duration ++ " ч.; Дистанция: " ++ fix3 m.distance ++
        " км; Ср. скорость: " ++ fix3 m.speed ++ " км/ч; Потрачено ккал: " ++
        fix3 c ++ ".")

/-- The class hierarchy: `base` is a bare `Training` instance, the other
constructors are the three subclasses with their extra fields. -/
inductive Training where
  | base (action duration weight : ℚ)
  | running (action duration weight : ℚ)
  | sportsWalking (action duration weight height : ℚ)
  | swimming (action duration weight length_pool count_pool : ℚ)
  deriving DecidableEq

def Training.action : Training → ℚ
  | .base a _ _ => a
  | .running a _ _ => a
  | .sportsWalking a _ _ _ => a
  | .swimming a _ _ _ _ => a

def Training.duration : Training → ℚ
  | .base _ d _ => d
  | .running _ d _ => d
  | .sportsWalking _ d _ _ => d
  | .swimming _ d _ _ _ => d

def Training.weight : Training → ℚ
  | .base _ _ w => w
  | .running _ _ w => w
  | .sportsWalking _ _ w _ => w
  | .swimming _ _ w _ _ => w

/-- `Training.MINS_IN_HOUR`. -/
def MINS_IN_HOUR : ℚ := 60

/-- `Training.M_IN_KM`. -/
def M_IN_KM : ℚ := 1000

/-- The class attribute `LEN_STEP`: 0.65 on `Training` (inherited by
`Running` and `SportsWalking`), overridden to 1.38 on `Swimming`. -/
def LEN_STEP : Training → ℚ
  | .swimming _ _ _ _ _ => 1.38
  | _ => 0.65

def Running.CALORIES_MEAN_SPEED_MULTIPLIER : ℚ := 18
def Running.CALORIES_MEAN_SPEED_SHIFT : ℚ := 1.79

def SportsWalking.CALORIES_WEIGHT_MULTIPLIER : ℚ := 0.035
def SportsWalking.CALORIES_SPEED_MULTIPLIER : ℚ := 0.029
def SportsWalking.COEF_KMH_TO_MS : ℚ := 0.278
def SportsWalking.SM_IN_METR : ℚ := 100

def Swimming.CALORIES_MEAN_SPEED_MULTIPLIER : ℚ := 2
def Swimming.CALORIES_MEAN_SPEED_SHIFT : ℚ := 1.1

/-- `Training.get_distance`: `action * LEN_STEP / M_IN_KM`; inherited
unchanged by all three subclasses (only the `LEN_STEP` constant varies). -/
def Training.get_distance (t : Training) : ℚ :=
  t.action * LEN_STEP t / M_IN_KM

/-- `get_mean_speed`: default `get_distance / duration`; `Swimming`
overrides it to `length_pool * count_pool / M_IN_KM / duration`. -/
def Training.get_mean_speed : Training → ℚ
  | .swimming _ d _ lp cp => lp * cp / M_IN_KM / d
  | t => t.get_distance / t.duration

/-- `get_spent_calories`: the base class body is `pass`, i.e. it returns
`None`; each subclass overrides it with its own formula. -/
def Training.get_spent_calories : Training → Option ℚ
  | .base _ _ _ => none
  | .running a d w =>
      some ((Running.CALORIES_MEAN_SPEED_MULTIPLIER *
          (Training.running a d w).get_mean_speed +
          Running.CALORIES_MEAN_SPEED_SHIFT) * w / M_IN_KM *
        d * MINS_IN_HOUR)
  | .sportsWalking a d w h =>
      let mean_speed_ms :=
        (Training.sportsWalking a d w h).get_mean_speed *
          SportsWalking.COEF_KMH_TO_MS
      let height_m := h / SportsWalking.SM_IN_METR
      some ((SportsWalking.CALORIES_WEIGHT_MULTIPLIER * w +
          (mean_speed_ms ^ 2 / height_m) *
          SportsWalking.CALORIES_SPEED_MULTIPLIER * w) *
        d * MINS_IN_HOUR)
  | .swimming a d w lp cp =>
      some (((Training.swimming a d w lp cp).get_mean_speed +
          Swimming.CALORIES_MEAN_SPEED_SHIFT) *
        Swimming.CALORIES_MEAN_SPEED_MULTIPLIER * w * d)

/-- `self.__class__.__name__`, as used by `show_training_info`. -/
def Training.name : Training → String
  | .base _ _ _ => "Training"
  | .running _ _ _ => "Running"
  | .sportsWalking _ _ _ _ => "SportsWalking"
  | .swimming _ _ _ _ _ => "Swimming"

/-- `Training.show_training_info`: assembles the `InfoMessage`. -/
def Training.show_training_info (t : Training) : InfoMessage :=
  ⟨t.name, t.duration, t.get_distance, t.get_mean_speed,
    t.get_spent_calories⟩

/-- The error raised by `read_package`: constructing a variant with
`*data` of the wrong length raises Python `TypeError` (an arity
mismatch). -/
inductive DispatchError where
  | arityMismatch
  deriving DecidableEq

/-- `read_package`: membership check in the `workout_types` dict keys
`{SWM, RUN, WLK}`, then construction via argument unpacking
`workout_types[workout_type](*data)`.  An unpacking arity mismatch raises
(`.error`); an unrecognized code falls off the end of the function and
returns Python `None` (`.ok none`). -/
def read_package (workout_type : String) (data : List ℚ) :
    Except DispatchError (Option Training) :=
  if workout_type = "SWM" then
    match data with
    | [a, d, w, lp, cp] => .ok (some (.swimming a d w lp cp))
    | _ => .error .arityMismatch
  else if workout_type = "RUN" then
    match data with
    | [a, d, w] => .ok (some (.running a d w))
    | _ => .error .arityMismatch
  else if workout_type = "WLK" then
    match data with
    | [a, d, w, h] => .ok (some (.sportsWalking a d w h))
    | _ => .error .arityMismatch
  else
    .ok none

/-- State-passing form of `show_training_info`: the method body only reads
`self`'s fields (there is no assignment anywhere in the class bodies), so
the record component is returned unchanged. -/
def Training.show_training_infoS (t : Training) : InfoMessage × Training :=
  (t.show_training_info, t)

/-- State-passing form of `get_message`: the method only reads fields. -/
def InfoMessage.get_messageS (m : InfoMessage) : Option String × InfoMessage :=
  (get_message m, m)

/-- Call `show_training_info` `n` times in sequence on a record, threading
the record state, collecting the outputs. -/
def callSummaryN : ℕ → Training → List InfoMessage × Training
  | 0, t => ([], t)
  | n + 1, t =>
      let p := t.show_training_infoS
      let q := callSummaryN n p.2
      (p.1 :: q.1, q.2)

/-- Call `get_message` `n` times in sequence on a message, threading the
message state, collecting the outputs. -/
def callMessageN : ℕ → InfoMessage → List (Option String) × InfoMessage
  | 0, m => ([], m)
  | n + 1, m =>
      let p := m.get_messageS
      let q := callMessageN n p.2
      (p.1 :: q.1, q.2)

/-- Number of characters after the last `'.'` of a string (the whole
string when it has no point). -/
def decimalsAfterPoint (s : String) : ℕ :=
  (s.data.reverse.takeWhile (fun c => c ≠ '.')).length

-- Sanity checks on concrete values.
example : (Training.running 15000 1 75).get_distance = 9.75 := by
  norm_num [Training.get_distance, Training.action, LEN_STEP, M_IN_KM]

example : (Training.swimming 720 1 80 25 40).get_mean_speed = 1 := by
  norm_num [Training.get_mean_speed, M_IN_KM]

/-- C3: for every record of each of the three variants, `get_distance`
equals `action * stepLengthKm / 1000` exactly, with step constant 0.65 for
Running and SportsWalking and 1.38 for Swimming. -/
theorem get_distance_formula (a d w h lp cp : ℚ) :
    (Training.running a d w).get_distance = a * 0.65 / 1000 ∧
    (Training.sportsWalking a d w h).get_distance = a * 0.65 / 1000 ∧
    (Training.swimming a d w lp cp).get_distance = a * 1.38 / 1000 := by
  refine ⟨?_, ?_, ?_⟩ <;>
    norm_num [Training.get_distance, Training.action, LEN_STEP, M_IN_KM]

/-- C2: for every record with positive duration, `get_mean_speed` is
`get_distance / duration` for Running and SportsWalking, while Swimming
overrides it to `length_pool * count_pool / 1000 / duration`; on a concrete
swimming record the two formulas genuinely differ, so the generic
distance-based formula is not what Swimming uses. -/
theorem get_mean_speed_formula (a d w h lp cp : ℚ) (_hd : 0 < d) :
    (Training.running a d w).get_mean_speed =
      (Training.running a d w).get_distance / d ∧
    (Training.sportsWalking a d w h).get_mean_speed =
      (Training.sportsWalking a d w h).get_distance / d ∧
    (Training.swimming a d w lp cp).get_mean_speed = lp * cp / 1000 / d ∧
    (Training.swimming 720 1 80 25 40).get_mean_speed ≠
      (Training.swimming 720 1 80 25 40).get_distance / (1 : ℚ) := by
  refine ⟨rfl, rfl, ?_, ?_⟩
  · norm_num [Training.get_mean_speed, M_IN_KM]
  · norm_num [Training.get_mean_speed, Training.get_distance,
      Training.action, LEN_STEP, M_IN_KM]

theorem get_mean_speed_formula_witness :
    (Training.running 15000 1 75).get_mean_speed =
      (Training.running 15000 1 75).get_distance / 1 ∧
    (Training.sportsWalking 15000 1 75 180).get_mean_speed =
      (Training.sportsWalking 15000 1 75 180).get_distance / 1 ∧
    (Training.swimming 15000 1 75 25 40).get_mean_speed =
      25 * 40 / 1000 / 1 ∧
    (Training.swimming 720 1 80 25 40).get_mean_speed ≠
      (Training.swimming 720 1 80 25 40).get_distance / (1 : ℚ) :=
  get_mean_speed_formula 15000 1 75 180 25 40 (by norm_num)

/-- C1: for every constructed workout record, `get_spent_calories` returns
exactly the per-variant formula of the spec, where `meanSpeedKmh` is the
record's own `get_mean_speed` value. -/
theorem get_spent_calories_formula (a d w h lp cp : ℚ) :
    (Training.running a d w).get_spent_calories =
      some ((18 * (Training.running a d w).get_mean_speed + 1.79) *
        w / 1000 * d * 60) ∧
    (Training.sportsWalking a d w h).get_spent_calories =
      some ((0.035 * w +
        ((Training.sportsWalking a d w h).get_mean_speed * 0.278) ^ 2 /
          (h / 100) * 0.029 * w) * d * 60) ∧
    (Training.swimming a d w lp cp).get_spent_calories =
      some (((Training.swimming a d w lp cp).get_mean_speed + 1.1) *
        2 * w * d) := by
  refine ⟨?_, ?_, ?_⟩
  · simp only [Training.get_spent_calories, Option.some.injEq,
      Running.CALORIES_MEAN_SPEED_MULTIPLIER,
      Running.CALORIES_MEAN_SPEED_SHIFT, M_IN_KM, MINS_IN_HOUR]
  · simp only [Training.get_spent_calories, Option.some.injEq,
      SportsWalking.CALORIES_WEIGHT_MULTIPLIER,
      SportsWalking.CALORIES_SPEED_MULTIPLIER,
      SportsWalking.COEF_KMH_TO_MS, SportsWalking.SM_IN_METR,
      MINS_IN_HOUR]
  · simp only [Training.get_spent_calories, Option.some.injEq,
      Swimming.CALORIES_MEAN_SPEED_MULTIPLIER,
      Swimming.CALORIES_MEAN_SPEED_SHIFT]

/-- C4: dispatching the package `("SWM", [720, 1, 80, 25, 40])` yields the
swimming record whose mean speed is `25*40/1000/1 = 1` km/h and whose
calories are `(1 + 1.1) * 2 * 80 * 1 = 336` exactly. -/
theorem swm_package_values :
    read_package "SWM" [720, 1, 80, 25, 40] =
      .ok (some (.swimming 720 1 80 25 40)) ∧
    (Training.swimming 720 1 80 25 40).get_mean_speed = 1 ∧
    (Training.swimming 720 1 80 25 40).get_spent_calories = some 336 := by
  refine ⟨rfl, ?_, ?_⟩
  · norm_num [Training.get_mean_speed, M_IN_KM]
  · norm_num [Training.get_spent_calories, Training.get_mean_speed,
      Swimming.CALORIES_MEAN_SPEED_MULTIPLIER,
      Swimming.CALORIES_MEAN_SPEED_SHIFT, M_IN_KM]

/-- C7: on a bare base `Training` record, `get_spent_calories` returns
Python `None` (the body is `pass`) — it does not raise
`NotImplementedError` as the spec's contract requires. -/
theorem base_get_spent_calories_none (a d w : ℚ) :
    (Training.base a d w).get_spent_calories = none := rfl

/-- C5: at the failing input `("XXX", [1, 2, 3])` the dispatcher raises no
error at all: it returns Python `None` instead of failing with an
InvalidCode error as the spec's contract requires. -/
theorem read_package_invalid_code_returns_none :
    read_package "XXX" [1, 2, 3] = .ok none := by
  simp [read_package]

/-- C10: for every code other than `"SWM"`, `"RUN"` and `"WLK"` and any
field list, `read_package` raises nothing and returns no record (Python
`None`): the unrecognized-code case falls off the end of the function. -/
theorem read_package_unknown_code (code : String) (data : List ℚ)
    (h1 : code ≠ "SWM") (h2 : code ≠ "RUN") (h3 : code ≠ "WLK") :
    read_package code data = .ok none := by
  simp [read_package, h1, h2, h3]

theorem read_package_unknown_code_witness :
    read_package "ABC" [4, 5, 6] = .ok none :=
  read_package_unknown_code "ABC" [4, 5, 6] (by decide) (by decide)
    (by decide)

/-- C6: for each recognized code, a field list whose length differs from
the variant's arity (5 for SWM, 3 for RUN, 4 for WLK) makes the dispatcher
fail with an arity-mismatch error (Python `TypeError` from `*data`
unpacking); no truncation or padding happens. -/
theorem read_package_arity (data : List ℚ) :
    (data.length ≠ 5 → read_package "SWM" data = .error .arityMismatch) ∧
    (data.length ≠ 3 → read_package "RUN" data = .error .arityMismatch) ∧
    (data.length ≠ 4 → read_package "WLK" data = .error .arityMismatch) := by
  refine ⟨?_, ?_, ?_⟩ <;> intro h <;>
    rcases data with _ | ⟨a, _ | ⟨b, _ | ⟨c, _ | ⟨d, _ | ⟨e, _ | ⟨f, r⟩⟩⟩⟩⟩⟩ <;>
    simp_all [read_package]

theorem read_package_arity_witness :
    read_package "SWM" [1, 2] = .error .arityMismatch ∧
    read_package "RUN" [1, 2] = .error .arityMismatch ∧
    read_package "WLK" [1, 2] = .error .arityMismatch :=
  ⟨(read_package_arity [1, 2]).1 (by decide),
    (read_package_arity [1, 2]).2.1 (by decide),
    (read_package_arity [1, 2]).2.2 (by decide)⟩

/-- C9: calling `show_training_info` (or `get_message`) any number of
times in sequence leaves the record (resp. the message) unchanged and
yields the same output every time. -/
theorem summary_render_idempotent (n : ℕ) (t : Training) (m : InfoMessage) :
    (callSummaryN n t).1 = List.replicate n t.show_training_info ∧
    (callSummaryN n t).2 = t ∧
    (callMessageN n m).1 = List.replicate n (get_message m) ∧
    (callMessageN n m).2 = m := by
  induction n with
  | zero => simp [callSummaryN, callMessageN]
  | succ k ih =>
      simp [callSummaryN, callMessageN, Training.show_training_infoS,
        InfoMessage.get_messageS, List.replicate_succ, ih.1, ih.2.1,
        ih.2.2.1, ih.2.2.2]

theorem digitChar_ne_dot (n : ℕ) : digitChar n ≠ '.' := by
  unfold digitChar
  have h : n % 10 < 10 := Nat.mod_lt _ (by norm_num)
  set k := n % 10 with hk
  interval_cases k <;> decide

theorem decimalsAfterPoint_append (pre : String) (a b c : Char)
    (ha : a ≠ '.') (hb : b ≠ '.') (hc : c ≠ '.') :
    decimalsAfterPoint (pre ++ "." ++ String.mk [a, b, c]) = 3 := by
  unfold decimalsAfterPoint
  simp [String.data_append, List.takeWhile, ha, hb, hc]

/-- Whatever the value, `fix3` renders exactly three characters after the
last point of the output (the three decimal digits). -/
theorem decimalsAfterPoint_fix3 (q : ℚ) :
    decimalsAfterPoint (fix3 q) = 3 :=
  decimalsAfterPoint_append _ _ _ _ (digitChar_ne_dot _)
    (digitChar_ne_dot _) (digitChar_ne_dot _)

/-- C8: on every message with a numeric calories field, `get_message`
produces the fixed single-line template with the fields in the order
label, duration, distance, mean speed, calories, and each numeric field is
rendered by `fix3` with exactly 3 decimal digits (3 characters after its
decimal point), whether or not the value is integral. -/
theorem get_message_template (label : String) (d dist sp c : ℚ) :
    get_message ⟨label, d, dist, sp, some c⟩ =
      some ("Тип тренировки: " ++ label ++ "; Длительность: " ++ fix3 d ++
        " ч.; Дистанция: " ++ fix3 dist ++ " км; Ср. скорость: " ++
        fix3 sp ++ " км/ч; Потрачено ккал: " ++ fix3 c ++ ".") ∧
    decimalsAfterPoint (fix3 d) = 3 ∧
    decimalsAfterPoint (fix3 dist) = 3 ∧
    decimalsAfterPoint (fix3 sp) = 3 ∧
    decimalsAfterPoint (fix3 c) = 3 :=
  ⟨rfl, decimalsAfterPoint_fix3 d, decimalsAfterPoint_fix3 dist,
    decimalsAfterPoint_fix3 sp, decimalsAfterPoint_fix3 c⟩
